import Mathlib

/-!
Shallow embedding of the rabbit-py message-routing system: configuration
constants, payload models and their JSON (de)serialization, the broker
topology state machine built by `setup_infrastructure`, direct/topic
routing, the dispatch-worker callbacks, and the RPC client/server pair.
Each definition mirrors one Python function or constant from `src/`.
-/

namespace RabbitPy

/-! ### config.py -/

def EXCHANGE_ORDERS : String := "orders.direct"

def EXCHANGE_EVENTS : String := "events.fanout"

def EXCHANGE_LOGS : String := "logs.topic"

def EXCHANGE_DLX : String := "orders.dlx"

def QUEUE_STANDARD_ORDERS : String := "orders.standard"

def QUEUE_EXPRESS_ORDERS : String := "orders.express"

def QUEUE_INTERNATIONAL_ORDERS : String := "orders.international"

def QUEUE_NOTIFICATIONS : String := "notifications"

def QUEUE_ANALYTICS : String := "analytics"

def QUEUE_LOGS : String := "logs.all"

def QUEUE_DLQ : String := "orders.failed"

def QUEUE_INVENTORY_RPC : String := "rpc.inventory"

def ROUTING_KEY_STANDARD : String := "order.standard"

def ROUTING_KEY_EXPRESS : String := "order.express"

def ROUTING_KEY_INTERNATIONAL : String := "order.international"

def PREFETCH_COUNT : Nat := 1

/-- Modelled from the spec: the flat-variant modules (`setup.py`, `worker.py`,
`producer.py`) reference a shared single order queue `config.QUEUE_ORDERS`
whose defining constant is not present in `src/src/config.py`; the spec's
open question describes it as "a single shared order queue". Its concrete
value affects no claim. -/
def QUEUE_ORDERS : String := "orders"

/-- Modelled from the spec: the flat-variant modules (`setup.py`, `rpc.py`)
reference an RPC request queue `config.QUEUE_RPC` whose defining constant is
not present in `src/src/config.py`; the spec names the RPC request queue for
the inventory service. Its concrete value affects no claim. -/
def QUEUE_RPC : String := "rpc.inventory"

/-! ### models.py -/

inductive OrderType where
  | STANDARD
  | EXPRESS
  | INTERNATIONAL
deriving DecidableEq, Repr

/-- The string value of the `OrderType` enum member (`OrderType.X.value`). -/
def OrderType.value : OrderType → String
  | .STANDARD => "standard"
  | .EXPRESS => "express"
  | .INTERNATIONAL => "international"

/-- `OrderType(s)` as used in `Order.from_json`: looks a string up among the
enum values, failing (raising `ValueError`) when it is none of them. -/
def OrderType.fromValue : String → Option OrderType
  | "standard" => some .STANDARD
  | "express" => some .EXPRESS
  | "international" => some .INTERNATIONAL
  | _ => none

inductive EventType where
  | ORDER_CREATED
  | ORDER_PROCESSING
  | ORDER_COMPLETED
  | ORDER_FAILED
deriving DecidableEq, Repr

/-- The string value of the `EventType` enum member (`EventType.X.value`). -/
def EventType.value : EventType → String
  | .ORDER_CREATED => "order.created"
  | .ORDER_PROCESSING => "order.processing"
  | .ORDER_COMPLETED => "order.completed"
  | .ORDER_FAILED => "order.failed"

/-- `EventType(s)` as used in `OrderEvent.from_json`. -/
def EventType.fromValue : String → Option EventType
  | "order.created" => some .ORDER_CREATED
  | "order.processing" => some .ORDER_PROCESSING
  | "order.completed" => some .ORDER_COMPLETED
  | "order.failed" => some .ORDER_FAILED
  | _ => none

/-- The `Order` dataclass of `models.py`. -/
structure Order where
  order_id : String
  customer_id : String
  product_id : String
  quantity : Int
  order_type : OrderType
deriving DecidableEq, Repr

/-- The JSON object written by `Order.to_json` and read by `Order.from_json`:
the five dataclass fields, with `order_type` replaced by its enum string
value. The `json.dumps`/`json.loads` pair of the standard library, which
round-trips this object exactly, is left external. -/
structure OrderWire where
  order_id : String
  customer_id : String
  product_id : String
  quantity : Int
  order_type : String
deriving DecidableEq, Repr

/-- `Order.to_json`: `asdict(self)` with `order_type` mapped to its value. -/
def Order.to_json (o : Order) : OrderWire :=
  { order_id := o.order_id
    customer_id := o.customer_id
    product_id := o.product_id
    quantity := o.quantity
    order_type := o.order_type.value }

/-- `Order.from_json`: parse the enum string back with `OrderType(...)`
(failing on an unknown value) and rebuild the dataclass with `cls(**data)`. -/
def Order.from_json (w : OrderWire) : Option Order :=
  match OrderType.fromValue w.order_type with
  | some t =>
      some { order_id := w.order_id
             customer_id := w.customer_id
             product_id := w.product_id
             quantity := w.quantity
             order_type := t }
  | none => none

/-- The `OrderEvent` dataclass of `models.py`. Its `metadata` field is an
arbitrary JSON-representable dictionary (`dict[str, Any] | None`), modelled
by a type parameter that serialization carries through unchanged. -/
structure OrderEvent (α : Type) where
  event_type : EventType
  order_id : String
  message : String
  metadata : Option α := none
deriving DecidableEq, Repr

/-- The JSON object written by `OrderEvent.to_json`: the four dataclass
fields with `event_type` replaced by its enum string value. -/
structure OrderEventWire (α : Type) where
  event_type : String
  order_id : String
  message : String
  metadata : Option α
deriving DecidableEq, Repr

/-- `OrderEvent.to_json`. -/
def OrderEvent.to_json {α : Type} (e : OrderEvent α) : OrderEventWire α :=
  { event_type := e.event_type.value
    order_id := e.order_id
    message := e.message
    metadata := e.metadata }

/-- `OrderEvent.from_json`. -/
def OrderEvent.from_json {α : Type} (w : OrderEventWire α) : Option (OrderEvent α) :=
  match EventType.fromValue w.event_type with
  | some t =>
      some { event_type := t
             order_id := w.order_id
             message := w.message
             metadata := w.metadata }
  | none => none

/-! ### Broker topology (exchanges.py / setup.py)

The broker boundary of §6 of the spec: declarations are recorded in a
`Broker` state; re-declaring an existing name with identical attributes is a
no-op, with conflicting attributes an error (AMQP `PRECONDITION_FAILED`,
the spec's `TopologyConflict`); a duplicate identical binding is a no-op. -/

inductive ExchangeKind where
  | direct
  | fanout
  | topic
deriving DecidableEq, Repr

structure ExchangeDecl where
  name : String
  kind : ExchangeKind
  durable : Bool
deriving DecidableEq, Repr

/-- A queue declaration; `deadLetterExchange` models the
`x-dead-letter-exchange` entry of the `arguments` dict. -/
structure QueueDecl where
  name : String
  durable : Bool
  deadLetterExchange : Option String := none
deriving DecidableEq, Repr

structure BindingDecl where
  queue : String
  exchange : String
  key : String
deriving DecidableEq, Repr

structure Broker where
  exchanges : List ExchangeDecl
  queues : List QueueDecl
  bindings : List BindingDecl
deriving DecidableEq, Repr

def emptyBroker : Broker := ⟨[], [], []⟩

/-- `channel.exchange_declare`. -/
def exchange_declare (b : Broker) (name : String) (kind : ExchangeKind)
    (durable : Bool) : Except String Broker :=
  match b.exchanges.find? (·.name == name) with
  | none => .ok { b with exchanges := b.exchanges ++ [⟨name, kind, durable⟩] }
  | some e =>
      if e.kind = kind ∧ e.durable = durable then .ok b
      else .error ("TopologyConflict: exchange " ++ name)

/-- `channel.queue_declare`. -/
def queue_declare (b : Broker) (name : String) (durable : Bool)
    (deadLetterExchange : Option String := none) : Except String Broker :=
  match b.queues.find? (·.name == name) with
  | none =>
      .ok { b with queues := b.queues ++ [⟨name, durable, deadLetterExchange⟩] }
  | some q =>
      if q.durable = durable ∧ q.deadLetterExchange = deadLetterExchange then .ok b
      else .error ("TopologyConflict: queue " ++ name)

/-- `channel.queue_bind` (routing key defaults to `""` when omitted, as in
pika). Requires both endpoints to exist; an identical duplicate binding is a
no-op. -/
def queue_bind (b : Broker) (queue exchange : String) (key : String := "") :
    Except String Broker :=
  if (b.queues.find? (·.name == queue)).isNone then
    .error ("NotFound: queue " ++ queue)
  else if (b.exchanges.find? (·.name == exchange)).isNone then
    .error ("NotFound: exchange " ++ exchange)
  else if b.bindings.contains ⟨queue, exchange, key⟩ then .ok b
  else .ok { b with bindings := b.bindings ++ [⟨queue, exchange, key⟩] }

/-- `setup_infrastructure` from `exchanges.py`: the per-order-type topology
(DLX first, direct order exchange with three bound queues, fanout event
exchange with two subscriber queues, topic log exchange, RPC queue). -/
def setup_infrastructure (b : Broker) : Except String Broker := do
  let b ← exchange_declare b EXCHANGE_DLX .fanout true
  let b ← queue_declare b QUEUE_DLQ true
  let b ← queue_bind b QUEUE_DLQ EXCHANGE_DLX
  let b ← exchange_declare b EXCHANGE_ORDERS .direct true
  let b ← queue_declare b QUEUE_STANDARD_ORDERS true (some EXCHANGE_DLX)
  let b ← queue_declare b QUEUE_EXPRESS_ORDERS true (some EXCHANGE_DLX)
  let b ← queue_declare b QUEUE_INTERNATIONAL_ORDERS true (some EXCHANGE_DLX)
  let b ← queue_bind b QUEUE_STANDARD_ORDERS EXCHANGE_ORDERS ROUTING_KEY_STANDARD
  let b ← queue_bind b QUEUE_EXPRESS_ORDERS EXCHANGE_ORDERS ROUTING_KEY_EXPRESS
  let b ← queue_bind b QUEUE_INTERNATIONAL_ORDERS EXCHANGE_ORDERS ROUTING_KEY_INTERNATIONAL
  let b ← exchange_declare b EXCHANGE_EVENTS .fanout true
  let b ← queue_declare b QUEUE_NOTIFICATIONS true
  let b ← queue_declare b QUEUE_ANALYTICS true
  let b ← queue_bind b QUEUE_NOTIFICATIONS EXCHANGE_EVENTS
  let b ← queue_bind b QUEUE_ANALYTICS EXCHANGE_EVENTS
  let b ← exchange_declare b EXCHANGE_LOGS .topic true
  let b ← queue_declare b QUEUE_LOGS true
  let b ← queue_bind b QUEUE_LOGS EXCHANGE_LOGS "order.#"
  let b ← queue_declare b QUEUE_INVENTORY_RPC false
  .ok b

/-- `setup_infrastructure` from `setup.py`: the single-shared-order-queue
variant of the topology. -/
def setup_infrastructure_flat (b : Broker) : Except String Broker := do
  let b ← exchange_declare b EXCHANGE_DLX .fanout true
  let b ← queue_declare b QUEUE_DLQ true
  let b ← queue_bind b QUEUE_DLQ EXCHANGE_DLX
  let b ← exchange_declare b EXCHANGE_ORDERS .direct true
  let b ← queue_declare b QUEUE_ORDERS true (some EXCHANGE_DLX)
  let b ← queue_bind b QUEUE_ORDERS EXCHANGE_ORDERS "order"
  let b ← exchange_declare b EXCHANGE_EVENTS .fanout true
  let b ← queue_declare b QUEUE_NOTIFICATIONS true
  let b ← queue_declare b QUEUE_ANALYTICS true
  let b ← queue_bind b QUEUE_NOTIFICATIONS EXCHANGE_EVENTS
  let b ← queue_bind b QUEUE_ANALYTICS EXCHANGE_EVENTS
  let b ← exchange_declare b EXCHANGE_LOGS .topic true
  let b ← queue_declare b QUEUE_LOGS true
  let b ← queue_bind b QUEUE_LOGS EXCHANGE_LOGS "order.#"
  let b ← queue_declare b QUEUE_RPC true
  .ok b

/-- The broker state after one `setup_infrastructure` run on a fresh broker. -/
def ordersTopology : Broker := ((setup_infrastructure emptyBroker).toOption).getD emptyBroker

/-! ### Routing semantics (spec §3) -/

deriving instance DecidableEq for Except

/-- Split a character list on `'.'`; always returns at least one (possibly
empty) segment, like Python's `str.split(".")`. -/
def splitSegs : List Char → List (List Char)
  | [] => [[]]
  | c :: cs =>
      let rest := splitSegs cs
      if c = '.' then [] :: rest
      else (c :: rest.headI) :: rest.tail

/-- Python's `routing_key.split(".")`: the dot-delimited segments of a
routing key or binding pattern. -/
def splitOnDot (s : String) : List String :=
  (splitSegs s.data).map String.mk

/-- Direct-exchange delivery: the queues whose binding on `exchange` has a
binding key exactly equal to the routing key. -/
def routeDirect (b : Broker) (exchange routingKey : String) : List String :=
  ((b.bindings.filter fun bd => bd.exchange == exchange && bd.key == routingKey).map
    fun bd => bd.queue)

/-- Segment-level topic matching: `*` matches exactly one segment, `#` zero
or more segments (a `#` pattern segment matches when the rest of the
pattern matches some suffix of the key). -/
def segMatch : List String → List String → Bool
  | [], ks => ks.isEmpty
  | "#" :: ps, ks => (ks.tails).any fun suffix => segMatch ps suffix
  | "*" :: ps, _ :: ks => segMatch ps ks
  | _ :: _, [] => false
  | p :: ps, k :: ks => p == k && segMatch ps ks

/-- Topic-exchange matching of a routing key against a binding pattern, both
dot-delimited. -/
def topicMatch (pattern key : String) : Bool :=
  segMatch (splitOnDot pattern) (splitOnDot key)

/-! ### Producers (producers/order_producer.py, producers/event_producer.py,
producer.py) -/

/-- `_get_routing_key` from `producers/order_producer.py`. -/
def _get_routing_key : OrderType → String
  | .STANDARD => ROUTING_KEY_STANDARD
  | .EXPRESS => ROUTING_KEY_EXPRESS
  | .INTERNATIONAL => ROUTING_KEY_INTERNATIONAL

/-- The per-order-type queue of `get_queue_for_order_type` from
`consumers/order_worker.py`. -/
def get_queue_for_order_type : OrderType → String
  | .STANDARD => QUEUE_STANDARD_ORDERS
  | .EXPRESS => QUEUE_EXPRESS_ORDERS
  | .INTERNATIONAL => QUEUE_INTERNATIONAL_ORDERS

/-- The routing key built by `publish_log` in `producers/event_producer.py`:
`f"{event.event_type.value}.{order_type_str}"`. -/
def publish_log_routing_key (event_type : EventType) (order_type_str : String) : String :=
  event_type.value ++ "." ++ order_type_str

/-! ### Dispatch-worker callbacks (consumers/order_worker.py, worker.py)

A callback execution is modelled as the list of channel operations it
performs. Inputs that the code draws from the outside world are explicit
parameters: the result of parsing the message body (`none` when
`json.loads`/`Order.from_json` raises) and whether the simulated random
failure fires during processing. -/

inductive WorkerOp where
  | publish (exchange : String) (routingKey : String)
  | ack
  | nack (requeue : Bool)
deriving DecidableEq, Repr

def WorkerOp.isResolution : WorkerOp → Bool
  | .publish _ _ => false
  | .ack => true
  | .nack _ => true

/-- The terminal ack/nack operations among a callback's operations. -/
def resolutions (ops : List WorkerOp) : List WorkerOp :=
  ops.filter WorkerOp.isResolution

/-- The `callback` closure of `start_worker` in `consumers/order_worker.py`.
`body` is the result of `Order.from_json(body.decode())` (`none` when it
raises), `failSim` whether `should_fail and random.random() < 0.3` fires.
On the success path it publishes a processing event/log, then a completion
event/log, then acks; any exception lands in the `except` block, which
re-parses the body to publish a failure event/log (silently skipped when
parsing fails again) and nacks with `requeue=False`. -/
def order_worker_callback (body : Option Order) (failSim : Bool) : List WorkerOp :=
  match body with
  | none => [.nack false]
  | some order =>
      [.publish EXCHANGE_EVENTS "",
       .publish EXCHANGE_LOGS (publish_log_routing_key .ORDER_PROCESSING order.order_type.value)]
      ++ (if failSim then
            [.publish EXCHANGE_EVENTS "",
             .publish EXCHANGE_LOGS (publish_log_routing_key .ORDER_FAILED order.order_type.value),
             .nack false]
          else
            [.publish EXCHANGE_EVENTS "",
             .publish EXCHANGE_LOGS (publish_log_routing_key .ORDER_COMPLETED order.order_type.value),
             .ack])

/-- The `callback` closure of `start_worker` in the flat `worker.py`.
`bodyOk` is whether `json.loads(body.decode())` and the `order_id` lookup
succeed, `failSim` whether `random.random() < 0.1` fires. On success it
publishes a completion event to the fanout exchange and a log with routing
key `"order.completed"` to the topic exchange, then acks; any exception is
caught and converted to `nack(requeue=False)`. -/
def worker_callback (bodyOk : Bool) (failSim : Bool) : List WorkerOp :=
  if bodyOk then
    if failSim then [.nack false]
    else
      [.publish EXCHANGE_EVENTS "",
       .publish EXCHANGE_LOGS "order.completed",
       .ack]
  else [.nack false]

/-- The topic-exchange routing key used by `publish_orders` in the flat
`producer.py` for its per-order log message. -/
def producer_log_routing_key : String := "order.created"

/-! ### RPC (rpc.py, rpc/inventory_rpc.py) -/

/-- The request body `{"product_id": product_id}` sent by `check_inventory`;
`product_id` is `none` when the JSON object lacks the field. -/
structure RpcRequest where
  product_id : Option String
deriving DecidableEq, Repr

/-- The response body built by `on_request` in `rpc.py`. -/
structure RpcResponse where
  product_id : String
  in_stock : Bool
  quantity : Nat
deriving DecidableEq, Repr

/-- The response computation of `on_request` in `rpc.py`:
`product_id = request.get("product_id", "unknown")`,
`in_stock = product_id not in ["PROD-999"]`,
`quantity = 42 if in_stock else 0`. -/
def computeResponse (req : RpcRequest) : RpcResponse :=
  let product_id := req.product_id.getD "unknown"
  let in_stock := !(["PROD-999"].contains product_id)
  let quantity := if in_stock then 42 else 0
  ⟨product_id, in_stock, quantity⟩

/-- An operation performed by an RPC server request handler. -/
inductive ServerOp where
  | publish (exchange : String) (routingKey : String) (correlation_id : Option String)
      (body : RpcResponse)
  | ack
deriving DecidableEq, Repr

def ServerOp.isPublish : ServerOp → Bool
  | .publish _ _ _ _ => true
  | .ack => false

def ServerOp.isAck : ServerOp → Bool
  | .publish _ _ _ _ => false
  | .ack => true

/-- Python truthiness of an optional string property (`if props.reply_to:`):
absent and empty string are both falsy. -/
def truthy : Option String → Bool
  | none => false
  | some s => s ≠ ""

/-- The `on_request` handler of `run_rpc_server` in `rpc.py`: compute the
response from the request body; when `props.reply_to` is truthy, publish the
response on the default exchange (`exchange=""`) directly to the `reply_to`
queue carrying the request's `correlation_id`; in every case ack the
request. -/
def on_request (reply_to correlation_id : Option String) (req : RpcRequest) :
    List ServerOp :=
  (if truthy reply_to then
    [.publish "" (reply_to.getD "") correlation_id (computeResponse req)]
   else []) ++ [.ack]

/-- The request body sent by `InventoryRPCClient.check_inventory`. -/
structure InvRequest where
  product_id : Option String
  quantity : Option Int
deriving DecidableEq, Repr

/-- The response body built by `InventoryRPCServer._on_request`; `available`
and `stock_level` come from `random`, passed here as explicit inputs. -/
structure InvResponse where
  product_id : Option String
  quantity : Option Int
  available : Bool
  stock_level : Nat
deriving DecidableEq, Repr

/-- An operation performed by `InventoryRPCServer._on_request`. -/
inductive InvServerOp where
  | publish (exchange : String) (routingKey : String) (correlation_id : Option String)
      (body : InvResponse)
  | ack
deriving DecidableEq, Repr

def InvServerOp.isPublish : InvServerOp → Bool
  | .publish _ _ _ _ => true
  | .ack => false

def InvServerOp.isAck : InvServerOp → Bool
  | .publish _ _ _ _ => false
  | .ack => true

/-- `InventoryRPCServer._on_request` of `rpc/inventory_rpc.py`: build the
response (availability and stock level drawn from `random`), publish it to
`properties.reply_to` via the default exchange with the same
`correlation_id` when `reply_to` is truthy, and ack the request. -/
def inv_on_request (reply_to correlation_id : Option String) (req : InvRequest)
    (available : Bool) (stock_level : Nat) : List InvServerOp :=
  let response : InvResponse :=
    ⟨req.product_id, req.quantity, available, stock_level⟩
  (if truthy reply_to then
    [.publish "" (reply_to.getD "") correlation_id response]
   else []) ++ [.ack]

/-- A delivery arriving on the RPC client's exclusive reply queue. -/
structure ReplyDelivery where
  correlation_id : Option String
  body : RpcResponse
deriving DecidableEq, Repr

/-- The `on_response` closure of `check_inventory` in `rpc.py`, as a fold
step over the stored response: when `props.correlation_id == corr_id` the
body replaces the stored response (and the delivery is acked), otherwise
the stored response is left unchanged. -/
def on_response (corr_id : String) (response : Option RpcResponse)
    (d : ReplyDelivery) : Option RpcResponse :=
  if d.correlation_id = some corr_id then some d.body else response

/-- `InventoryRPCClient._on_response` of `rpc/inventory_rpc.py`: stores the
body iff `self.correlation_id == properties.correlation_id`. -/
def inv_on_response (self_correlation_id : Option String)
    (response : Option RpcResponse) (d : ReplyDelivery) : Option RpcResponse :=
  if self_correlation_id = d.correlation_id then some d.body else response

/-- An operation performed by the RPC client `check_inventory` of `rpc.py`. -/
inductive ClientOp where
  | declareExclusiveQueue
  | consume (queue : String)
  | publishRequest (exchange : String) (routingKey : String)
      (reply_to : Option String) (correlation_id : Option String) (body : RpcRequest)
  | wait (time_limit : Nat)
  | closeConnection
deriving DecidableEq, Repr

def ClientOp.isPublishRequest : ClientOp → Bool
  | .publishRequest _ _ _ _ _ => true
  | _ => false

def ClientOp.isWait : ClientOp → Bool
  | .wait _ => true
  | _ => false

/-- The channel/connection operations performed by one `check_inventory`
call of `rpc.py`, in order: declare the exclusive callback queue, consume
from it, publish the single request (default exchange, routed to the RPC
queue, carrying `reply_to` and the fresh `corr_id`), wait once for at most
5 seconds (`process_data_events(time_limit=5)`), close the connection. -/
def check_inventory_ops (product_id corr_id callback_queue : String) : List ClientOp :=
  [.declareExclusiveQueue,
   .consume callback_queue,
   .publishRequest "" QUEUE_RPC (some callback_queue) (some corr_id) ⟨some product_id⟩,
   .wait 5,
   .closeConnection]

/-- The result of `check_inventory` in `rpc.py`: `arrivals` are the
deliveries handed to `on_response` during the wait window; the stored
response starts empty, each delivery is folded through `on_response`, and
an empty response at the end raises `TimeoutError`. -/
def check_inventory (product_id corr_id : String) (arrivals : List ReplyDelivery) :
    Except String RpcResponse :=
  match arrivals.foldl (on_response corr_id) none with
  | some r => .ok r
  | none => .error ("RPC timeout: no response received for " ++ product_id)

/-! ### Pattern-subscriber log service (consumers/log_consumer.py) -/

/-- The order-type extraction of the `callback` closure in
`start_log_service` of `consumers/log_consumer.py`:
`parts = routing_key.split("."); parts[2] if len(parts) >= 3 else "unknown"`. -/
def log_callback_order_type (routing_key : String) : String :=
  let parts := splitOnDot routing_key
  if h : parts.length ≥ 3 then parts.get ⟨2, by omega⟩ else "unknown"

/-- The publishes a worker callback makes to the topic (`logs`) exchange. -/
def logsPublishes (ops : List WorkerOp) : List WorkerOp :=
  ops.filter fun op =>
    match op with
    | .publish exchange _ => exchange == EXCHANGE_LOGS
    | _ => false

/-! ## Theorems -/

/-- C1: every message delivered to a dispatch-worker callback (both the
`consumers/order_worker.py` and the flat `worker.py` variant) is resolved
exactly once: the callback performs exactly one terminal operation, which
is `basic_ack` when processing completes without raising and
`basic_nack(requeue=False)` when any exception is raised (the body fails
to parse or the simulated failure fires); the callback never acks and
nacks the same delivery, never leaves it unresolved, and, being a total
function of its inputs, lets no exception propagate out. -/
theorem worker_callback_resolves_exactly_once :
    ∀ (body : Option Order) (failSim bodyOk : Bool),
      ((resolutions (order_worker_callback body failSim)).length = 1 ∧
       resolutions (order_worker_callback body failSim) =
         (if body.isSome && !failSim then [.ack] else [.nack false])) ∧
      ((resolutions (worker_callback bodyOk failSim)).length = 1 ∧
       resolutions (worker_callback bodyOk failSim) =
         (if bodyOk && !failSim then [.ack] else [.nack false])) := by
  intro body failSim bodyOk
  constructor
  · cases body <;> cases failSim <;>
      simp [order_worker_callback, resolutions, WorkerOp.isResolution, List.filter]
  · cases bodyOk <;> cases failSim <;>
      simp [worker_callback, resolutions, WorkerOp.isResolution, List.filter]

/-- C4: for every request either RPC server handler processes
(`run_rpc_server.on_request` in `rpc.py` and
`InventoryRPCServer._on_request` in `rpc/inventory_rpc.py`), a response is
published iff the request carries a (nonempty) `reply_to` address; the
publish goes through the default exchange (`exchange=""`) directly to that
address, carrying the request's own `correlation_id`; and in both cases
the request is acknowledged exactly once. -/
theorem rpc_server_reply_iff_reply_to :
    ∀ (reply_to correlation_id : Option String) (req : RpcRequest)
      (ireq : InvRequest) (available : Bool) (stock_level : Nat),
      (((on_request reply_to correlation_id req).filter ServerOp.isPublish ≠ []) ↔
        truthy reply_to = true) ∧
      ((on_request reply_to correlation_id req).filter ServerOp.isPublish =
        if truthy reply_to then
          [.publish "" (reply_to.getD "") correlation_id (computeResponse req)]
        else []) ∧
      (((on_request reply_to correlation_id req).filter ServerOp.isAck).length = 1) ∧
      ((inv_on_request reply_to correlation_id ireq available stock_level).filter
          InvServerOp.isPublish =
        if truthy reply_to then
          [.publish "" (reply_to.getD "") correlation_id
            ⟨ireq.product_id, ireq.quantity, available, stock_level⟩]
        else []) ∧
      (((inv_on_request reply_to correlation_id ireq available stock_level).filter
          InvServerOp.isAck).length = 1) := by
  intro reply_to correlation_id req ireq available stock_level
  cases h : truthy reply_to <;>
    simp [on_request, inv_on_request, h, ServerOp.isPublish, ServerOp.isAck,
      InvServerOp.isPublish, InvServerOp.isAck, List.filter]

/-- C8 (amended): messages published to the topic (`logs`) exchange via
`publish_log` carry the routing key `<event-type>.<order-type>` — three
dot-separated segments whose first segment is `order` — and match the
bound pattern `order.#`; the flat `worker.py` and `producer.py` variants
instead publish the bare event-type keys `order.completed` and
`order.created`, which have two segments, not three, but whose first
segment is still `order`, so they also match `order.#`. -/
theorem logs_topic_routing_keys :
    (∀ (e : EventType) (ot : OrderType),
      (splitOnDot (publish_log_routing_key e ot.value)).length = 3 ∧
      (splitOnDot (publish_log_routing_key e ot.value)).head? = some "order" ∧
      topicMatch "order.#" (publish_log_routing_key e ot.value) = true) ∧
    (∀ (body : Option Order) (failSim : Bool),
      logsPublishes (order_worker_callback body failSim) =
        (match body with
         | none => []
         | some o =>
            [.publish EXCHANGE_LOGS
              (publish_log_routing_key .ORDER_PROCESSING o.order_type.value)] ++
            (if failSim then
              [.publish EXCHANGE_LOGS
                (publish_log_routing_key .ORDER_FAILED o.order_type.value)]
             else
              [.publish EXCHANGE_LOGS
                (publish_log_routing_key .ORDER_COMPLETED o.order_type.value)]))) ∧
    (∀ (bodyOk failSim : Bool),
      logsPublishes (worker_callback bodyOk failSim) =
        (if bodyOk && !failSim then
          [.publish EXCHANGE_LOGS "order.completed"]
         else [])) ∧
    ((splitOnDot "order.completed").length = 2 ∧
     (splitOnDot "order.completed").head? = some "order" ∧
     topicMatch "order.#" "order.completed" = true) ∧
    ((splitOnDot producer_log_routing_key).length = 2 ∧
     (splitOnDot producer_log_routing_key).head? = some "order" ∧
     topicMatch "order.#" producer_log_routing_key = true) := by
  refine ⟨?_, ?_, ?_, by decide, by decide⟩
  · intro e ot
    cases e <;> cases ot <;> decide
  · intro body failSim
    cases body <;> cases failSim <;>
      simp [order_worker_callback, logsPublishes, List.filter, EXCHANGE_LOGS,
        EXCHANGE_EVENTS]
  · intro bodyOk failSim
    cases bodyOk <;> cases failSim <;>
      simp [worker_callback, logsPublishes, List.filter, EXCHANGE_LOGS,
        EXCHANGE_EVENTS]

/-- C8 counterexample: the flat `worker.py` dispatch worker, on a
successfully processed order, publishes to the topic (`logs`) exchange
with routing key `"order.completed"`, which has two dot-separated
segments, not three. -/
theorem logs_topic_routing_key_counterexample :
    WorkerOp.publish EXCHANGE_LOGS "order.completed" ∈ worker_callback true false ∧
    (splitOnDot "order.completed").length ≠ 3 := by
  constructor <;> decide

/-- C10: the pattern-subscriber log service's callback splits the routing
key on dots and reports the order type as the third segment when the key
has at least three segments (so for every `publish_log` key
`<event-type>.<order-type>` it reports exactly the order type), and as the
literal string `"unknown"` otherwise — in particular the two-segment keys
`order.completed` and `order.created` published by the flat variants are
handled without error and reported as `"unknown"`. -/
theorem log_service_order_type_extraction :
    (∀ (e : EventType) (ot : OrderType),
      log_callback_order_type (publish_log_routing_key e ot.value) = ot.value) ∧
    log_callback_order_type "order.completed" = "unknown" ∧
    log_callback_order_type producer_log_routing_key = "unknown" ∧
    (∀ k : String, (splitOnDot k).length ≥ 3 →
      log_callback_order_type k = (splitOnDot k).getD 2 "") ∧
    (∀ k : String, (splitOnDot k).length < 3 →
      log_callback_order_type k = "unknown") := by
  refine ⟨?_, by decide, by decide, ?_, ?_⟩
  · intro e ot
    cases e <;> cases ot <;> decide
  · intro k h
    rw [log_callback_order_type, dif_pos h, List.getD_eq_getElem _ _ (by omega)]
    rfl
  · intro k h
    rw [log_callback_order_type, dif_neg (by omega)]

/-- C10 witness: the extraction theorem applied at the concrete keys
`order.completed.express` (three segments) and `order` (one segment). -/
theorem log_service_order_type_extraction_witness :
    log_callback_order_type "order.completed.express" =
      (splitOnDot "order.completed.express").getD 2 "" ∧
    log_callback_order_type "order" = "unknown" :=
  ⟨log_service_order_type_extraction.2.2.2.1 "order.completed.express" (by decide),
   log_service_order_type_extraction.2.2.2.2 "order" (by decide)⟩

/-- C3: for every order published via `publish_order`, the routing key is
exactly `order.standard`, `order.express`, or `order.international`
according to the order's `order_type`, and under the direct-exchange
bindings declared by `setup_infrastructure` the message is delivered to
exactly the one queue whose binding key equals that routing key (in
particular an express order reaches `orders.express` and neither
`orders.standard` nor `orders.international`). -/
theorem publish_order_direct_routing :
    _get_routing_key .STANDARD = "order.standard" ∧
    _get_routing_key .EXPRESS = "order.express" ∧
    _get_routing_key .INTERNATIONAL = "order.international" ∧
    ∀ ot : OrderType,
      routeDirect ordersTopology EXCHANGE_ORDERS (_get_routing_key ot) =
        [get_queue_for_order_type ot] := by
  refine ⟨rfl, rfl, rfl, ?_⟩
  intro ot
  cases ot <;> decide

/-- C6: deserializing the serialization of any `Order` or `OrderEvent`
returns an equal value, and the serialized form uses exactly the enum
string values `standard`/`express`/`international` for order types and
`order.created`/`order.processing`/`order.completed`/`order.failed` for
event types. -/
theorem models_json_round_trip :
    (∀ o : Order, Order.from_json (Order.to_json o) = some o) ∧
    (∀ (α : Type) (e : OrderEvent α),
      OrderEvent.from_json (OrderEvent.to_json e) = some e) ∧
    (OrderType.value .STANDARD = "standard" ∧
     OrderType.value .EXPRESS = "express" ∧
     OrderType.value .INTERNATIONAL = "international") ∧
    (EventType.value .ORDER_CREATED = "order.created" ∧
     EventType.value .ORDER_PROCESSING = "order.processing" ∧
     EventType.value .ORDER_COMPLETED = "order.completed" ∧
     EventType.value .ORDER_FAILED = "order.failed") := by
  refine ⟨?_, ?_, ⟨rfl, rfl, rfl⟩, ⟨rfl, rfl, rfl, rfl⟩⟩
  · intro o
    obtain ⟨a, b, c, q, t⟩ := o
    cases t <;> rfl
  · intro α e
    obtain ⟨t, oid, msg, md⟩ := e
    cases t <;> rfl

/-- C7: running `setup_infrastructure` (either topology variant) a second
time on the broker state produced by a first run from a fresh broker
performs only identical re-declarations: it raises no error and produces
the same broker state, so setting up twice equals setting up once. -/
theorem setup_infrastructure_idempotent :
    (setup_infrastructure emptyBroker).bind setup_infrastructure =
      setup_infrastructure emptyBroker ∧
    (setup_infrastructure emptyBroker).toOption.isSome = true ∧
    (setup_infrastructure_flat emptyBroker).bind setup_infrastructure_flat =
      setup_infrastructure_flat emptyBroker ∧
    (setup_infrastructure_flat emptyBroker).toOption.isSome = true := by
  refine ⟨by decide, by decide, by decide, by decide⟩

/-- C9: the `rpc.py` RPC server's response is a deterministic (pure)
function `computeResponse` of the request's `product_id`: `in_stock` is
true iff the effective product id differs from `"PROD-999"`, `quantity` is
42 when in stock and 0 otherwise, and a request body lacking `product_id`
is answered with product id `"unknown"` (and, being absent from the
out-of-stock list, 42 units) rather than rejected. -/
theorem rpc_server_response_deterministic :
    (∀ req : RpcRequest,
      ((computeResponse req).in_stock = true ↔
        (computeResponse req).product_id ≠ "PROD-999") ∧
      (computeResponse req).product_id = req.product_id.getD "unknown" ∧
      (computeResponse req).quantity =
        (if (computeResponse req).in_stock then 42 else 0)) ∧
    computeResponse ⟨none⟩ = ⟨"unknown", true, 42⟩ := by
  refine ⟨?_, by decide⟩
  intro req
  obtain ⟨pid⟩ := req
  cases pid with
  | none => simp [computeResponse]
  | some s =>
      by_cases h : s = "PROD-999" <;>
        simp [computeResponse, h]

/-- Folding `on_response` over deliveries none of which carries the call's
correlation token leaves the stored response unchanged. -/
theorem foldl_on_response_no_match (corr_id : String) :
    ∀ (arrivals : List ReplyDelivery) (acc : Option RpcResponse),
      (∀ d ∈ arrivals, d.correlation_id ≠ some corr_id) →
      arrivals.foldl (on_response corr_id) acc = acc := by
  intro arrivals
  induction arrivals with
  | nil => intro acc _; rfl
  | cons d ds ih =>
      intro acc h
      have hd : d.correlation_id ≠ some corr_id := h d (by simp)
      rw [List.foldl_cons]
      rw [show on_response corr_id acc d = acc from by simp [on_response, hd]]
      exact ih acc fun x hx => h x (by simp [hx])

/-- A stored response produced by folding `on_response` is either the
initial one or the body of some delivery carrying the call's correlation
token. -/
theorem foldl_on_response_mem (corr_id : String) :
    ∀ (arrivals : List ReplyDelivery) (acc : Option RpcResponse) (r : RpcResponse),
      arrivals.foldl (on_response corr_id) acc = some r →
      acc = some r ∨ ∃ d ∈ arrivals, d.correlation_id = some corr_id ∧ d.body = r := by
  intro arrivals
  induction arrivals with
  | nil => intro acc r h; exact .inl h
  | cons d ds ih =>
      intro acc r h
      rw [List.foldl_cons] at h
      rcases ih (on_response corr_id acc d) r h with h1 | h2
      · by_cases hc : d.correlation_id = some corr_id
        · right
          refine ⟨d, by simp, hc, ?_⟩
          have : some d.body = some r := by simpa [on_response, hc] using h1
          exact Option.some.inj this
        · left
          simpa [on_response, hc] using h1
      · right
        obtain ⟨a, ha, h3⟩ := h2
        exact ⟨a, by simp [ha], h3⟩

/-- C2: a `check_inventory` call of `rpc.py` during whose wait window no
delivery carrying its correlation token arrives (for example because no
RPC server is running) terminates by raising the typed timeout failure
(`TimeoutError`), after publishing the request exactly once (no automatic
retry) and waiting exactly once with the configured 5-second
`time_limit`. -/
theorem check_inventory_timeout_no_retry
    (product_id corr_id callback_queue : String) (arrivals : List ReplyDelivery)
    (h : ∀ d ∈ arrivals, d.correlation_id ≠ some corr_id) :
    check_inventory product_id corr_id arrivals =
      .error ("RPC timeout: no response received for " ++ product_id) ∧
    ((check_inventory_ops product_id corr_id callback_queue).filter
        ClientOp.isPublishRequest).length = 1 ∧
    (check_inventory_ops product_id corr_id callback_queue).filter ClientOp.isWait =
      [.wait 5] := by
  refine ⟨?_, by simp [check_inventory_ops, List.filter, ClientOp.isPublishRequest],
    by simp [check_inventory_ops, List.filter, ClientOp.isWait]⟩
  unfold check_inventory
  rw [foldl_on_response_no_match corr_id arrivals none h]

/-- C2 witness: the timeout theorem applied to a call with token `corr-1`
whose only arrival carries the foreign token `corr-2`. -/
theorem check_inventory_timeout_no_retry_witness :
    check_inventory "PROD-1" "corr-1" [⟨some "corr-2", ⟨"PROD-1", true, 42⟩⟩] =
      .error ("RPC timeout: no response received for " ++ "PROD-1") ∧
    ((check_inventory_ops "PROD-1" "corr-1" "amq.gen-1").filter
        ClientOp.isPublishRequest).length = 1 ∧
    (check_inventory_ops "PROD-1" "corr-1" "amq.gen-1").filter ClientOp.isWait =
      [.wait 5] :=
  check_inventory_timeout_no_retry "PROD-1" "corr-1" "amq.gen-1"
    [⟨some "corr-2", ⟨"PROD-1", true, 42⟩⟩] (by decide)

/-- C5: both client response handlers (`on_response` in `rpc.py` and
`InventoryRPCClient._on_response` in `rpc/inventory_rpc.py`) leave the
stored response unchanged on a delivery whose `correlation_id` differs
from the call's token; consequently, when every reply-queue delivery
carrying the call's token is the server's response to the call's request
(which carries the requested `product_id`), a `check_inventory` call that
returns a response returns exactly that server response, whose
`product_id` equals the requested one. -/
theorem rpc_client_correlation_filtering
    (corr_id product_id : String) (stored : Option RpcResponse)
    (d : ReplyDelivery) (self_cid : Option String)
    (arrivals : List ReplyDelivery) (r : RpcResponse)
    (hd : d.correlation_id ≠ some corr_id)
    (hself : self_cid ≠ d.correlation_id)
    (hsrv : ∀ a ∈ arrivals, a.correlation_id = some corr_id →
        a.body = computeResponse ⟨some product_id⟩)
    (hret : check_inventory product_id corr_id arrivals = .ok r) :
    on_response corr_id stored d = stored ∧
    inv_on_response self_cid stored d = stored ∧
    r = computeResponse ⟨some product_id⟩ ∧
    r.product_id = product_id := by
  have hf : arrivals.foldl (on_response corr_id) none = some r := by
    unfold check_inventory at hret
    cases hfold : arrivals.foldl (on_response corr_id) none with
    | none => rw [hfold] at hret; exact absurd hret (by simp)
    | some x =>
        rw [hfold] at hret
        simpa using hret
  have hr : r = computeResponse ⟨some product_id⟩ := by
    rcases foldl_on_response_mem corr_id arrivals none r hf with h1 | ⟨a, ha, hca, hb⟩
    · exact absurd h1 (by simp)
    · rw [← hb]
      exact hsrv a ha hca
  refine ⟨by simp [on_response, hd], by simp [inv_on_response, hself], hr, ?_⟩
  rw [hr]
  simp [computeResponse]

/-- C5 witness: the correlation theorem applied to token `corr-1`, a
mismatched delivery with token `corr-9`, and a single correctly-correlated
server response for product `PROD-A`. -/
theorem rpc_client_correlation_filtering_witness :
    on_response "corr-1" none ⟨some "corr-9", ⟨"X", true, 1⟩⟩ = none ∧
    inv_on_response (some "corr-1") none ⟨some "corr-9", ⟨"X", true, 1⟩⟩ = none ∧
    (⟨"PROD-A", true, 42⟩ : RpcResponse) = computeResponse ⟨some "PROD-A"⟩ ∧
    (⟨"PROD-A", true, 42⟩ : RpcResponse).product_id = "PROD-A" :=
  rpc_client_correlation_filtering "corr-1" "PROD-A" none
    ⟨some "corr-9", ⟨"X", true, 1⟩⟩ (some "corr-1")
    [⟨some "corr-1", ⟨"PROD-A", true, 42⟩⟩] ⟨"PROD-A", true, 42⟩
    (by decide) (by decide) (by decide) (by decide)

end RabbitPy
